import Mathlib

/-!
Shallow embedding of reflex/components/datadisplay/table.py.

The file defines declarative table component factories (Table, Thead, Tbody,
Tfoot, Tr, Th, Td, TableCaption) that translate caption/headers/rows/footers
arguments into a tree of component nodes, validating the shape of the inputs.

Python dynamic values relevant to these factories are modelled by `Value`
(plain lists, tuples, strings, None, reactive `Var` wrappers carrying a
declared type, and opaque scalar atoms).  Raising `TypeError` is modelled by
returning `Except.error`; the shape-validation TypeError raised by the
validators is the `PyErr.typeError` constructor, while the runtime TypeError
produced by iterating over a non-iterable object is `PyErr.notIterable`.
-/

/-- Result of `types.get_base_class` on a Python type expression: the runtime
base class, which the validators compare against `(list, tuple)`. -/
inductive Base where
  | lst
  | tup
  | oth (name : String)
deriving DecidableEq

/-- Printable name of a base class, used in the rows error message. -/
def Base.str : Base → String
  | .lst => "list"
  | .tup => "tuple"
  | .oth n => n

/-- A Python type expression as stored in a reactive value's declared type
slot (`Var.type_`): either a bare class (no `__args__` attribute) or a
subscripted generic whose first `__args__` entry is recorded. -/
inductive PyTy where
  | simple (base : Base)
  | generic (base : Base) (arg : PyTy)
deriving DecidableEq

/-- Embeds `reflex.utils.types.get_base_class`: the runtime base class of a
type expression. -/
def types.get_base_class : PyTy → Base
  | .simple b => b
  | .generic b _ => b

/-- Rendering of a type expression, used for the f-string in the rows
validation error message. -/
def PyTy.reprStr : PyTy → String
  | .simple b => b.str
  | .generic b a => b.str ++ "[" ++ a.reprStr ++ "]"

/-- Tests membership of a base class in `(list, tuple)`. -/
def isListOrTuple (b : Base) : Bool :=
  b = Base.lst || b = Base.tup

/-- A Python value as it can reach the table factories: a list, a tuple, a
string, None, a reactive `Var` wrapper with a declared type, or any other
scalar object (recorded with its type name and its truthiness). -/
inductive Value where
  | vlist (elems : List Value)
  | vtuple (elems : List Value)
  | str (s : String)
  | none
  | var (ty : PyTy)
  | atom (tyName : String) (truthy : Bool)

/-- Embeds `isinstance(v, Var)`. -/
def Value.isVar : Value → Bool
  | .var _ => true
  | _ => false

/-- Embeds the identity test `v is None`. -/
def Value.isNone : Value → Bool
  | .none => true
  | _ => false

/-- Embeds `isinstance(v, (list, tuple))`. -/
def Value.isListTupleInst : Value → Bool
  | .vlist _ => true
  | .vtuple _ => true
  | _ => false

/-- Python truthiness of a value, as used by `rows or []` and `not rows`.
Lists, tuples and strings are truthy when non-empty; None is falsy; the
truthiness of other scalars is carried by the value itself.  (A `Var` is
never tested for truthiness by this code: every use is guarded by an
`isinstance(.., Var)` branch taken first.) -/
def Value.truthy : Value → Bool
  | .vlist xs => !xs.isEmpty
  | .vtuple xs => !xs.isEmpty
  | .str s => !s.isEmpty
  | .none => false
  | .var _ => true
  | .atom _ t => t

/-- Embeds `types.get_base_class(type(v))` for a plain (non-Var) value. -/
def Value.baseClass : Value → Base
  | .vlist _ => .lst
  | .vtuple _ => .tup
  | .str _ => .oth "str"
  | .none => .oth "NoneType"
  | .var _ => .oth "Var"
  | .atom n _ => .oth n

/-- Name of a value's type, used in the not-iterable runtime error. -/
def Value.typeName : Value → String
  | .vlist _ => "list"
  | .vtuple _ => "tuple"
  | .str _ => "str"
  | .none => "NoneType"
  | .var _ => "Var"
  | .atom n _ => n

/-- First element of a list or tuple value (`rows[0]`), when there is one. -/
def Value.first? : Value → Option Value
  | .vlist xs => xs.head?
  | .vtuple xs => xs.head?
  | _ => Option.none

/-- Errors a factory call can signal: the shape-validation `TypeError` raised
by the validators, or the runtime `TypeError` Python raises when a `for` loop
iterates a non-iterable object. -/
inductive PyErr where
  | typeError (msg : String)
  | notIterable (tyName : String)
deriving DecidableEq

/-- Embeds Python iteration over a value: lists and tuples yield their
elements, strings yield their one-character substrings, anything else raises
at runtime. -/
def Value.iterate : Value → Except PyErr (List Value)
  | .vlist xs => .ok xs
  | .vtuple xs => .ok xs
  | .str s => .ok (s.data.map (fun c => Value.str (String.mk [c])))
  | v => .error (.notIterable v.typeName)

/-- Embeds iteration over `v or []`: a falsy `v` is replaced by the empty
list, otherwise `v` itself is iterated. -/
def orElseEmpty (v : Value) : Except PyErr (List Value) :=
  if v.truthy then v.iterate else .ok []

/-- A component tree node: a tagged node with children, a bare (non-component)
child value as passed to `Component.create`, or a `Foreach` dynamic-rendering
node holding the reactive collection and the per-element render function. -/
inductive Comp where
  | node (tag : String) (children : List Comp)
  | raw (v : Value)
  | foreach (coll : Value) (body : Value → Except PyErr Comp)

/-- The two cell classes `Tr.create` can select: `Th` (header) or `Td`
(data). -/
inductive CellCls where
  | th
  | td
deriving DecidableEq

/-- Tag emitted by a cell class. -/
def CellCls.tag : CellCls → String
  | .th => "Th"
  | .td => "Td"

/-- Embeds `Th.create(cell)` / `Td.create(cell)`: a cell node with the cell
value as its single child. -/
def CellCls.create (cc : CellCls) (cell : Value) : Comp :=
  .node cc.tag [.raw cell]

/-- Embeds the lookup `{"header": Th, "data": Td}.get(cell_type)` in
`Tr.create`. -/
def Tr.cellClasses (cell_type : String) : Option CellCls :=
  if cell_type = "header" then some .th
  else if cell_type = "data" then some .td
  else Option.none

/-- Per-element body `cell_cls.create` passed to `Foreach.create` for a
reactive cells value. -/
def Tr.cellFn (cc : CellCls) : Value → Except PyErr Comp :=
  fun cell => .ok (cc.create cell)

/-- Embeds `Tr.create`: with no explicit children and a recognised cell_type,
a reactive cells value becomes one `Foreach` child and a plain value is
iterated (via `cells or []`) into one cell node per element; otherwise the
explicit children are kept as they are. -/
def Tr.create (children : List Comp) (cell_type : String) (cells : Value) :
    Except PyErr Comp :=
  match Tr.cellClasses cell_type with
  | some cc =>
      if children.isEmpty then
        if cells.isVar then
          .ok (Comp.node "Tr" [Comp.foreach cells (Tr.cellFn cc)])
        else
          match orElseEmpty cells with
          | .error e => .error e
          | .ok xs => .ok (Comp.node "Tr" (xs.map cc.create))
      else .ok (Comp.node "Tr" children)
  | Option.none => .ok (Comp.node "Tr" children)

/-- Embeds `Thead.validate_headers`: raises unless the headers value is a
plain list/tuple or a `Var` whose declared type has base class list/tuple. -/
def Thead.validate_headers (headers : Value) : Except PyErr Unit :=
  if (headers.isVar && !isListOrTuple (match headers with
        | .var ty => types.get_base_class ty
        | v => v.baseClass))
      || (!headers.isVar && !isListOrTuple headers.baseClass) then
    .error (.typeError "table headers should be a list or tuple")
  else .ok ()

/-- Embeds `Thead.create`: with no explicit children, validates headers and
builds a single header row with cell_type "header". -/
def Thead.create (children : List Comp) (headers : Value) : Except PyErr Comp :=
  if children.isEmpty then
    match Thead.validate_headers headers with
    | .error e => .error e
    | .ok _ =>
        match Tr.create [] "header" headers with
        | .error e => .error e
        | .ok tr => .ok (Comp.node "Thead" [tr])
  else .ok (Comp.node "Thead" children)

/-- Embeds `Tbody.validate_rows`: for a `Var`, the declared outer type must
have base class list/tuple and, when an `__args__` entry exists, so must the
declared element type; for a plain value, it must be a list/tuple that is
empty (falsy) or whose FIRST element is a list/tuple. -/
def Tbody.validate_rows (rows : Value) : Except PyErr Unit :=
  match rows with
  | .var outer_type =>
      let inner_type : Option PyTy :=
        match outer_type with
        | .generic _ a => some a
        | .simple _ => Option.none
      if !(isListOrTuple (types.get_base_class outer_type)
            && (match inner_type with
                | Option.none => true
                | some t => isListOrTuple (types.get_base_class t))) then
        .error (.typeError
          ("table rows should be a list or tuple containing inner lists or tuples. Got "
            ++ outer_type.reprStr ++ " instead"))
      else .ok ()
  | v =>
      if !(v.isListTupleInst
            && (!v.truthy
                || (match v.first? with
                    | some r => r.isListTupleInst
                    | Option.none => false))) then
        .error (.typeError
          "table rows should be a list or tuple containing inner lists or tuples.")
      else .ok ()

/-- Per-row body `lambda row: Tr.create(cell_type="data", cells=row)` used by
`Tbody.create` both for the `Foreach` branch and the static comprehension. -/
def Tbody.rowFn (row : Value) : Except PyErr Comp :=
  Tr.create [] "data" row

/-- Left-to-right effectful map, embedding a Python list comprehension whose
element expression may raise: the first raise propagates. -/
def exceptMapAll (f : Value → Except PyErr Comp) : List Value → Except PyErr (List Comp)
  | [] => .ok []
  | v :: vs =>
      match f v with
      | .error e => .error e
      | .ok c =>
          match exceptMapAll f vs with
          | .error e => .error e
          | .ok cs => .ok (c :: cs)

/-- Embeds `Tbody.create`: with no explicit children, validates rows, then
emits one `Foreach` child for a reactive rows value, or one data row per
element of `rows or []` otherwise. -/
def Tbody.create (children : List Comp) (rows : Value) : Except PyErr Comp :=
  if children.isEmpty then
    match Tbody.validate_rows rows with
    | .error e => .error e
    | .ok _ =>
        if rows.isVar then
          .ok (Comp.node "Tbody" [Comp.foreach rows Tbody.rowFn])
        else
          match orElseEmpty rows with
          | .error e => .error e
          | .ok rs =>
              match exceptMapAll Tbody.rowFn rs with
              | .error e => .error e
              | .ok trs => .ok (Comp.node "Tbody" trs)
  else .ok (Comp.node "Tbody" children)

/-- Embeds `Tfoot.validate_footers`: the same list/tuple shape check as for
headers, raising the same message that names headers. -/
def Tfoot.validate_footers (footers : Value) : Except PyErr Unit :=
  if (footers.isVar && !isListOrTuple (match footers with
        | .var ty => types.get_base_class ty
        | v => v.baseClass))
      || (!footers.isVar && !isListOrTuple footers.baseClass) then
    .error (.typeError "table headers should be a list or tuple")
  else .ok ()

/-- Embeds `Tfoot.create`: with no explicit children, validates footers and
builds a single row with cell_type "header". -/
def Tfoot.create (children : List Comp) (footers : Value) : Except PyErr Comp :=
  if children.isEmpty then
    match Tfoot.validate_footers footers with
    | .error e => .error e
    | .ok _ =>
        match Tr.create [] "header" footers with
        | .error e => .error e
        | .ok tr => .ok (Comp.node "Tfoot" [tr])
  else .ok (Comp.node "Tfoot" children)

/-- Embeds `TableCaption.create(caption)`: a caption node holding the caption
value. -/
def TableCaption.create (caption : Value) : Comp :=
  .node "TableCaption" [.raw caption]

/-- Embeds one guarded append step of `Table.create`
(`if x is not None: children.append(Build.create(x=x))`): nothing when the
argument is None, otherwise the one section component the builder returns,
propagating its validation error. -/
def sectionList (v : Value) (build : Value → Except PyErr Comp) :
    Except PyErr (List Comp) :=
  if v.isNone then .ok []
  else
    match build v with
    | .error e => .error e
    | .ok c => .ok [c]

/-- Embeds `Table.create`: with no explicit children, appends — in this fixed
order — a caption node, a header section, a body section and a footer
section, each present exactly when its argument is not None; validation
errors of a section propagate before later sections are built. -/
def Table.create (children : List Comp) (caption headers rows footers : Value) :
    Except PyErr Comp :=
  if children.isEmpty then
    let capL : List Comp :=
      if caption.isNone then [] else [TableCaption.create caption]
    match sectionList headers (Thead.create []) with
    | .error e => .error e
    | .ok headL =>
        match sectionList rows (Tbody.create []) with
        | .error e => .error e
        | .ok bodyL =>
            match sectionList footers (Tfoot.create []) with
            | .error e => .error e
            | .ok footL =>
                .ok (Comp.node "Table" (capL ++ headL ++ bodyL ++ footL))
  else .ok (Comp.node "Table" children)

/-- The per-tag `invalid_children` class attribute: tags that may not appear
as direct children of a node with the given tag.  Tags not listed (Table,
TableCaption, TableContainer, Foreach, ...) use the empty default. -/
def invalid_children : String → List String
  | "Thead" => ["Tbody", "Thead", "Tfoot"]
  | "Tbody" => ["Tbody", "Thead", "Tfoot", "Td", "Th"]
  | "Tfoot" => ["Tbody", "Thead", "Td", "Th", "Tfoot"]
  | "Tr" => ["Tbody", "Thead", "Tfoot", "Tr"]
  | "Th" => ["Tbody", "Thead", "Tr", "Td", "Th"]
  | "Td" => ["Tbody", "Thead"]
  | _ => []

/-- Whether a child component may sit directly under a parent with the given
tag: tagged nodes must not be in the parent's invalid_children list; bare
values and Foreach nodes carry no table tag and are always allowed. -/
def childTagAllowed (parentTag : String) : Comp → Bool
  | .node t _ => !(invalid_children parentTag).contains t
  | _ => true

/-- The tag of a component node, when it is a tagged node. -/
def Comp.tagOf : Comp → Option String
  | .node t _ => some t
  | _ => Option.none

/-- Structural nesting validity: no node appears as a direct child of a
parent whose invalid_children list contains its tag, recursively, including
every component a Foreach body can produce. -/
inductive NestOk : Comp → Prop where
  | raw : ∀ v, NestOk (Comp.raw v)
  | node : ∀ (t : String) (cs : List Comp),
      (∀ c ∈ cs, childTagAllowed t c = true) →
      (∀ c ∈ cs, NestOk c) → NestOk (Comp.node t cs)
  | foreach : ∀ (coll : Value) (body : Value → Except PyErr Comp),
      (∀ v c, body v = Except.ok c → NestOk c) → NestOk (Comp.foreach coll body)

/-- Spec-level predicate: the value is list/tuple-like — a plain list/tuple,
or a Var whose declared type has base class list or tuple. -/
def listTupleLike : Value → Bool
  | .vlist _ => true
  | .vtuple _ => true
  | .var ty => isListOrTuple (types.get_base_class ty)
  | _ => false

/-- Spec-level predicate, following the amended rows claim: a Var rows value
is well shaped when its declared outer base is list/tuple and any declared
element type also has base list/tuple; a plain rows value is well shaped when
it is a list/tuple that is empty or whose first element is a list/tuple. -/
def rowsWellShaped : Value → Bool
  | .var ty =>
      isListOrTuple (types.get_base_class ty)
        && (match ty with
            | .simple _ => true
            | .generic _ inner => isListOrTuple (types.get_base_class inner))
  | .vlist [] => true
  | .vlist (r :: _) => r.isListTupleInst
  | .vtuple [] => true
  | .vtuple (r :: _) => r.isListTupleInst
  | _ => false

/-! ### Helper lemmas -/

/-- Iterating `xs or []` for a plain list value always yields its elements. -/
theorem orElseEmpty_vlist (xs : List Value) :
    orElseEmpty (Value.vlist xs) = Except.ok xs := by
  cases xs <;> simp [orElseEmpty, Value.truthy, Value.iterate]

/-- Iterating `xs or []` for a plain tuple value always yields its elements. -/
theorem orElseEmpty_vtuple (xs : List Value) :
    orElseEmpty (Value.vtuple xs) = Except.ok xs := by
  cases xs <;> simp [orElseEmpty, Value.truthy, Value.iterate]

/-- An error of `orElseEmpty` is always the runtime not-iterable error. -/
theorem orElseEmpty_error (v : Value) (e : PyErr)
    (h : orElseEmpty v = Except.error e) : ∃ n, e = PyErr.notIterable n := by
  unfold orElseEmpty at h
  split at h
  · cases v <;> simp [Value.iterate] at h <;>
      first
        | exact ⟨_, h⟩
        | exact ⟨_, h.symm⟩
  · simp at h

/-- The headers validator succeeds exactly on list/tuple-like values and
otherwise raises the headers message. -/
theorem validate_headers_eq (v : Value) :
    Thead.validate_headers v =
      (if listTupleLike v then Except.ok () else
        Except.error (PyErr.typeError "table headers should be a list or tuple")) := by
  cases v with
  | var ty =>
      cases h : isListOrTuple (types.get_base_class ty) <;>
        simp [Thead.validate_headers, listTupleLike, Value.isVar, h]
  | vlist xs => simp [Thead.validate_headers, listTupleLike, Value.isVar,
      Value.baseClass, isListOrTuple]
  | vtuple xs => simp [Thead.validate_headers, listTupleLike, Value.isVar,
      Value.baseClass, isListOrTuple]
  | str s => simp [Thead.validate_headers, listTupleLike, Value.isVar,
      Value.baseClass, isListOrTuple]
  | none => simp [Thead.validate_headers, listTupleLike, Value.isVar,
      Value.baseClass, isListOrTuple]
  | atom n t => simp [Thead.validate_headers, listTupleLike, Value.isVar,
      Value.baseClass, isListOrTuple]

/-- The footers validator is the same check with the same (headers) message. -/
theorem validate_footers_eq (v : Value) :
    Tfoot.validate_footers v =
      (if listTupleLike v then Except.ok () else
        Except.error (PyErr.typeError "table headers should be a list or tuple")) := by
  cases v with
  | var ty =>
      cases h : isListOrTuple (types.get_base_class ty) <;>
        simp [Tfoot.validate_footers, listTupleLike, Value.isVar, h]
  | vlist xs => simp [Tfoot.validate_footers, listTupleLike, Value.isVar,
      Value.baseClass, isListOrTuple]
  | vtuple xs => simp [Tfoot.validate_footers, listTupleLike, Value.isVar,
      Value.baseClass, isListOrTuple]
  | str s => simp [Tfoot.validate_footers, listTupleLike, Value.isVar,
      Value.baseClass, isListOrTuple]
  | none => simp [Tfoot.validate_footers, listTupleLike, Value.isVar,
      Value.baseClass, isListOrTuple]
  | atom n t => simp [Tfoot.validate_footers, listTupleLike, Value.isVar,
      Value.baseClass, isListOrTuple]

/-- Building a row from a plain list of cells with a recognised cell class
yields one statically built cell node per element. -/
theorem tr_create_vlist (cell_type : String) (cc : CellCls) (xs : List Value)
    (h : Tr.cellClasses cell_type = some cc) :
    Tr.create [] cell_type (Value.vlist xs) =
      Except.ok (Comp.node "Tr" (xs.map cc.create)) := by
  simp [Tr.create, h, Value.isVar, orElseEmpty_vlist]

/-- Building a row from a plain tuple of cells with a recognised cell class
yields one statically built cell node per element. -/
theorem tr_create_vtuple (cell_type : String) (cc : CellCls) (xs : List Value)
    (h : Tr.cellClasses cell_type = some cc) :
    Tr.create [] cell_type (Value.vtuple xs) =
      Except.ok (Comp.node "Tr" (xs.map cc.create)) := by
  simp [Tr.create, h, Value.isVar, orElseEmpty_vtuple]

/-- Building a row from a reactive cells value with a recognised cell class
yields exactly one Foreach child. -/
theorem tr_create_var (cell_type : String) (cc : CellCls) (ty : PyTy)
    (h : Tr.cellClasses cell_type = some cc) :
    Tr.create [] cell_type (Value.var ty) =
      Except.ok (Comp.node "Tr" [Comp.foreach (Value.var ty) (Tr.cellFn cc)]) := by
  simp [Tr.create, h, Value.isVar]

/-- Every successful row build returns a node tagged "Tr". -/
theorem tr_create_shape (children : List Comp) (cell_type : String) (cells : Value)
    (c : Comp) (h : Tr.create children cell_type cells = Except.ok c) :
    ∃ l, c = Comp.node "Tr" l := by
  unfold Tr.create at h
  rcases hcc : Tr.cellClasses cell_type with - | cc <;> rw [hcc] at h
  · exact ⟨children, (Except.ok.inj h).symm⟩
  · by_cases hch : children.isEmpty <;> simp [hch] at h
    · by_cases hv : cells.isVar <;> simp [hv] at h
      · exact ⟨_, h.symm⟩
      · rcases ho : orElseEmpty cells with e | xs <;> rw [ho] at h <;>
          simp at h
        exact ⟨_, h.symm⟩
    · exact ⟨children, h.symm⟩

/-- A row build can only fail with the runtime not-iterable error, never with
the shape-validation TypeError. -/
theorem tr_create_error (children : List Comp) (cell_type : String) (cells : Value)
    (e : PyErr) (h : Tr.create children cell_type cells = Except.error e) :
    ∃ n, e = PyErr.notIterable n := by
  unfold Tr.create at h
  rcases hcc : Tr.cellClasses cell_type with - | cc <;> rw [hcc] at h
  · simp at h
  · by_cases hch : children.isEmpty <;> simp [hch] at h
    by_cases hv : cells.isVar <;> simp [hv] at h
    rcases ho : orElseEmpty cells with e' | xs <;> rw [ho] at h <;> simp at h
    exact h ▸ orElseEmpty_error cells e' ho


/-- The rows validator succeeds on every well-shaped rows value. -/
theorem validate_rows_ok (rows : Value) (h : rowsWellShaped rows = true) :
    Tbody.validate_rows rows = Except.ok () := by
  cases rows with
  | var ty =>
      cases ty with
      | simple b =>
          simp [rowsWellShaped, types.get_base_class] at h
          simp [Tbody.validate_rows, types.get_base_class, h]
      | generic b a =>
          simp [rowsWellShaped, types.get_base_class] at h
          simp [Tbody.validate_rows, types.get_base_class, h.1, h.2]
  | vlist xs =>
      cases xs with
      | nil => simp [Tbody.validate_rows, Value.isListTupleInst, Value.truthy]
      | cons r rest =>
          cases r <;> simp [rowsWellShaped, Value.isListTupleInst] at h <;>
            simp [Tbody.validate_rows, Value.isListTupleInst, Value.truthy,
              Value.first?]
  | vtuple xs =>
      cases xs with
      | nil => simp [Tbody.validate_rows, Value.isListTupleInst, Value.truthy]
      | cons r rest =>
          cases r <;> simp [rowsWellShaped, Value.isListTupleInst] at h <;>
            simp [Tbody.validate_rows, Value.isListTupleInst, Value.truthy,
              Value.first?]
  | str s => simp [rowsWellShaped] at h
  | none => simp [rowsWellShaped] at h
  | atom n t => simp [rowsWellShaped] at h

/-- The rows validator raises the shape-validation TypeError on every rows
value that is not well shaped. -/
theorem validate_rows_error (rows : Value) (h : rowsWellShaped rows = false) :
    ∃ msg, Tbody.validate_rows rows = Except.error (PyErr.typeError msg) := by
  cases rows with
  | var ty =>
      refine ⟨"table rows should be a list or tuple containing inner lists or tuples. Got "
        ++ ty.reprStr ++ " instead", ?_⟩
      cases ty with
      | simple b =>
          simp [rowsWellShaped, types.get_base_class] at h
          simp [Tbody.validate_rows, types.get_base_class, h]
      | generic b a =>
          cases hb : isListOrTuple b with
          | false => simp [Tbody.validate_rows, types.get_base_class, hb]
          | true =>
              simp [rowsWellShaped, types.get_base_class, hb] at h
              simp [Tbody.validate_rows, types.get_base_class, hb, h]
  | vlist xs =>
      refine ⟨"table rows should be a list or tuple containing inner lists or tuples.", ?_⟩
      cases xs with
      | nil => simp [rowsWellShaped] at h
      | cons r rest =>
          cases r <;> simp [rowsWellShaped, Value.isListTupleInst] at h <;>
            simp [Tbody.validate_rows, Value.isListTupleInst, Value.truthy,
              Value.first?]
  | vtuple xs =>
      refine ⟨"table rows should be a list or tuple containing inner lists or tuples.", ?_⟩
      cases xs with
      | nil => simp [rowsWellShaped] at h
      | cons r rest =>
          cases r <;> simp [rowsWellShaped, Value.isListTupleInst] at h <;>
            simp [Tbody.validate_rows, Value.isListTupleInst, Value.truthy,
              Value.first?]
  | str s =>
      exact ⟨"table rows should be a list or tuple containing inner lists or tuples.",
        by simp [Tbody.validate_rows, Value.isListTupleInst]⟩
  | none =>
      exact ⟨"table rows should be a list or tuple containing inner lists or tuples.",
        by simp [Tbody.validate_rows, Value.isListTupleInst]⟩
  | atom n t =>
      exact ⟨"table rows should be a list or tuple containing inner lists or tuples.",
        by simp [Tbody.validate_rows, Value.isListTupleInst]⟩

/-- Every component in a successful effectful map comes from a successful
application of the mapped function. -/
theorem exceptMapAll_ok_mem (f : Value → Except PyErr Comp) :
    ∀ (vs : List Value) (cs : List Comp), exceptMapAll f vs = Except.ok cs →
      ∀ c ∈ cs, ∃ v, f v = Except.ok c := by
  intro vs
  induction vs with
  | nil =>
      intro cs h c hc
      simp [exceptMapAll] at h
      subst h
      simp at hc
  | cons v rest ih =>
      intro cs h c hc
      unfold exceptMapAll at h
      rcases hv : f v with e | cv <;> rw [hv] at h
      · simp at h
      · rcases hr : exceptMapAll f rest with e | crest <;> rw [hr] at h
        · simp at h
        · simp at h
          subst h
          rcases List.mem_cons.mp hc with rfl | hc
          · exact ⟨v, hv⟩
          · exact ih crest hr c hc

/-- An error of an effectful map is an error of the mapped function on some
element. -/
theorem exceptMapAll_error (f : Value → Except PyErr Comp) :
    ∀ (vs : List Value) (e : PyErr), exceptMapAll f vs = Except.error e →
      ∃ v, f v = Except.error e := by
  intro vs
  induction vs with
  | nil => intro e h; simp [exceptMapAll] at h
  | cons v rest ih =>
      intro e h
      unfold exceptMapAll at h
      rcases hv : f v with e' | cv <;> rw [hv] at h
      · simp at h
        exact ⟨v, h ▸ hv⟩
      · rcases hr : exceptMapAll f rest with e' | crest <;> rw [hr] at h
        · simp at h
          exact ih e (h ▸ hr)
        · simp at h

/-- Every cell node a cell class builds is nesting-valid. -/
theorem nestOk_cell (cc : CellCls) (v : Value) : NestOk (cc.create v) := by
  refine NestOk.node _ _ ?_ ?_
  · intro c hc
    simp [CellCls.create] at hc
    subst hc
    rfl
  · intro c hc
    simp [CellCls.create] at hc
    subst hc
    exact NestOk.raw v

/-- A cell node is never a forbidden child of a row. -/
theorem cell_allowed_in_tr (cc : CellCls) (v : Value) :
    childTagAllowed "Tr" (cc.create v) = true := by
  cases cc <;> rfl

/-- Every row built with no explicit children is nesting-valid. -/
theorem nestOk_tr (cell_type : String) (cells : Value) (c : Comp)
    (h : Tr.create [] cell_type cells = Except.ok c) : NestOk c := by
  unfold Tr.create at h
  rcases hcc : Tr.cellClasses cell_type with - | cc <;> rw [hcc] at h <;>
    simp at h
  · subst h
    exact NestOk.node _ _ (by simp) (by simp)
  · by_cases hvar : cells.isVar
    · simp [hvar] at h
      subst h
      refine NestOk.node _ _ ?_ ?_
      · intro c hc
        simp at hc
        subst hc
        rfl
      · intro c hc
        simp at hc
        subst hc
        refine NestOk.foreach _ _ ?_
        intro v c hfc
        simp [Tr.cellFn] at hfc
        subst hfc
        exact nestOk_cell cc v
    · simp [hvar] at h
      rcases ho : orElseEmpty cells with e | xs <;> rw [ho] at h <;> simp at h
      subst h
      refine NestOk.node _ _ ?_ ?_
      · intro c hc
        rcases List.mem_map.mp hc with ⟨x, -, rfl⟩
        exact cell_allowed_in_tr cc x
      · intro c hc
        rcases List.mem_map.mp hc with ⟨x, -, rfl⟩
        exact nestOk_cell cc x

/-- The caption node is nesting-valid. -/
theorem nestOk_caption (v : Value) : NestOk (TableCaption.create v) := by
  refine NestOk.node _ _ ?_ ?_
  · intro c hc
    simp [TableCaption.create] at hc
    subst hc
    rfl
  · intro c hc
    simp [TableCaption.create] at hc
    subst hc
    exact NestOk.raw v

/-- A successful header section build with no explicit children is a Thead
node and is nesting-valid. -/
theorem nestOk_thead (headers : Value) (c : Comp)
    (h : Thead.create [] headers = Except.ok c) :
    (∃ l, c = Comp.node "Thead" l) ∧ NestOk c := by
  unfold Thead.create at h
  simp at h
  rcases hv : Thead.validate_headers headers with e | u <;> rw [hv] at h <;>
    simp at h
  rcases htr : Tr.create [] "header" headers with e | tr <;> rw [htr] at h <;>
    simp at h
  subst h
  refine ⟨⟨_, rfl⟩, NestOk.node _ _ ?_ ?_⟩
  · intro c hc
    simp at hc
    subst hc
    rcases tr_create_shape _ _ _ _ htr with ⟨l, rfl⟩
    simp [childTagAllowed, invalid_children]
  · intro c hc
    simp at hc
    subst hc
    exact nestOk_tr _ _ _ htr

/-- A successful footer section build with no explicit children is a Tfoot
node and is nesting-valid. -/
theorem nestOk_tfoot (footers : Value) (c : Comp)
    (h : Tfoot.create [] footers = Except.ok c) :
    (∃ l, c = Comp.node "Tfoot" l) ∧ NestOk c := by
  unfold Tfoot.create at h
  simp at h
  rcases hv : Tfoot.validate_footers footers with e | u <;> rw [hv] at h <;>
    simp at h
  rcases htr : Tr.create [] "header" footers with e | tr <;> rw [htr] at h <;>
    simp at h
  subst h
  refine ⟨⟨_, rfl⟩, NestOk.node _ _ ?_ ?_⟩
  · intro c hc
    simp at hc
    subst hc
    rcases tr_create_shape _ _ _ _ htr with ⟨l, rfl⟩
    simp [childTagAllowed, invalid_children]
  · intro c hc
    simp at hc
    subst hc
    exact nestOk_tr _ _ _ htr

/-- A successful body section build with no explicit children is a Tbody node
and is nesting-valid. -/
theorem nestOk_tbody (rows : Value) (c : Comp)
    (h : Tbody.create [] rows = Except.ok c) :
    (∃ l, c = Comp.node "Tbody" l) ∧ NestOk c := by
  unfold Tbody.create at h
  simp at h
  rcases hv : Tbody.validate_rows rows with e | u <;> rw [hv] at h <;>
    simp at h
  by_cases hvar : rows.isVar
  · simp [hvar] at h
    subst h
    refine ⟨⟨_, rfl⟩, NestOk.node _ _ ?_ ?_⟩
    · intro c hc
      simp at hc
      subst hc
      rfl
    · intro c hc
      simp at hc
      subst hc
      exact NestOk.foreach _ _ (fun v c hfc => nestOk_tr "data" v c hfc)
  · simp [hvar] at h
    rcases ho : orElseEmpty rows with e | rs <;> rw [ho] at h <;> simp at h
    rcases hm : exceptMapAll Tbody.rowFn rs with e | trs <;> rw [hm] at h <;>
      simp at h
    subst h
    refine ⟨⟨_, rfl⟩, NestOk.node _ _ ?_ ?_⟩
    · intro c hc
      rcases exceptMapAll_ok_mem _ _ _ hm c hc with ⟨v, hv2⟩
      rcases tr_create_shape _ _ _ _ hv2 with ⟨l, rfl⟩
      simp [childTagAllowed, invalid_children]
    · intro c hc
      rcases exceptMapAll_ok_mem _ _ _ hm c hc with ⟨v, hv2⟩
      exact nestOk_tr "data" v c hv2

/-- The Table tag has no invalid children. -/
theorem invalid_children_table : invalid_children "Table" = [] := rfl

/-- Any component may sit directly under a Table node. -/
theorem childTagAllowed_table (c : Comp) : childTagAllowed "Table" c = true := by
  cases c <;> simp [childTagAllowed, invalid_children_table]

/-- A section whose builder succeeds (or whose argument is None) contributes
exactly its expected tag (or nothing) to the Table children. -/
theorem sectionList_ok (v : Value) (build : Value → Except PyErr Comp)
    (hv : v = Value.none ∨ ∃ c, build v = Except.ok c)
    (tag : String) (hshape : ∀ c, build v = Except.ok c → Comp.tagOf c = some tag) :
    ∃ l, sectionList v build = Except.ok l ∧
      l.map Comp.tagOf = (if v.isNone then [] else [some tag]) := by
  by_cases hn : v.isNone
  · exact ⟨[], by simp [sectionList, hn], by simp [hn]⟩
  · rcases hv with rfl | ⟨c, hc⟩
    · simp [Value.isNone] at hn
    · exact ⟨[c], by simp [sectionList, hn, hc], by simp [hn, hshape c hc]⟩

/-- Every component a successful section contributes is produced by the
section builder. -/
theorem sectionList_mem (v : Value) (build : Value → Except PyErr Comp)
    (l : List Comp) (h : sectionList v build = Except.ok l) :
    ∀ c ∈ l, build v = Except.ok c := by
  intro c hc
  unfold sectionList at h
  by_cases hn : v.isNone <;> simp [hn] at h
  · subst h
    simp at hc
  · rcases hb : build v with e | c' <;> rw [hb] at h <;> simp at h
    subst h
    simp at hc
    subst hc
    rfl

/-! ### Claim theorems -/

/-- C1: for a well-formed plain list or tuple of headers, `Thead.create` with
no explicit children returns a header component whose children are exactly
one `Tr` row built with cell_type "header", containing one `Th` cell per
header element, in the same order. -/
theorem thead_create_one_header_row (headers : Value) (hs : List Value)
    (h : headers = Value.vlist hs ∨ headers = Value.vtuple hs) :
    Thead.create [] headers =
      Except.ok (Comp.node "Thead"
        [Comp.node "Tr" (hs.map (fun v => Comp.node "Th" [Comp.raw v]))]) := by
  have hmap : hs.map CellCls.th.create = hs.map (fun v => Comp.node "Th" [Comp.raw v]) := rfl
  have hval : Thead.validate_headers headers = Except.ok () := by
    rcases h with rfl | rfl <;> simp [validate_headers_eq, listTupleLike]
  have htr : Tr.create [] "header" headers =
      Except.ok (Comp.node "Tr" (hs.map CellCls.th.create)) := by
    rcases h with rfl | rfl
    · exact tr_create_vlist "header" CellCls.th hs rfl
    · exact tr_create_vtuple "header" CellCls.th hs rfl
  unfold Thead.create
  simp [hval, htr, hmap]

/-- Witness for C1 at a concrete two-element header list. -/
theorem thead_create_one_header_row_witness :
    Thead.create [] (Value.vlist [Value.str "a", Value.str "b"]) =
      Except.ok (Comp.node "Thead"
        [Comp.node "Tr" ([Value.str "a", Value.str "b"].map
          (fun v => Comp.node "Th" [Comp.raw v]))]) :=
  thead_create_one_header_row (Value.vlist [Value.str "a", Value.str "b"])
    [Value.str "a", Value.str "b"] (Or.inl rfl)

/-- C3: `Tr.create` with no explicit children selects the cell node type from
cell_type: "header" yields one `Th` per cell and "data" yields one `Td` per
cell, in order. -/
theorem tr_create_cell_type_selection (cells : Value) (cs : List Value)
    (h : cells = Value.vlist cs ∨ cells = Value.vtuple cs) :
    Tr.create [] "header" cells =
      Except.ok (Comp.node "Tr" (cs.map (fun v => Comp.node "Th" [Comp.raw v]))) ∧
    Tr.create [] "data" cells =
      Except.ok (Comp.node "Tr" (cs.map (fun v => Comp.node "Td" [Comp.raw v]))) := by
  rcases h with rfl | rfl
  · exact ⟨tr_create_vlist "header" CellCls.th cs rfl,
      tr_create_vlist "data" CellCls.td cs rfl⟩
  · exact ⟨tr_create_vtuple "header" CellCls.th cs rfl,
      tr_create_vtuple "data" CellCls.td cs rfl⟩

/-- Witness for C3 at a concrete one-element cells list. -/
theorem tr_create_cell_type_selection_witness :
    Tr.create [] "header" (Value.vlist [Value.str "x"]) =
      Except.ok (Comp.node "Tr" ([Value.str "x"].map
        (fun v => Comp.node "Th" [Comp.raw v]))) ∧
    Tr.create [] "data" (Value.vlist [Value.str "x"]) =
      Except.ok (Comp.node "Tr" ([Value.str "x"].map
        (fun v => Comp.node "Td" [Comp.raw v]))) :=
  tr_create_cell_type_selection (Value.vlist [Value.str "x"]) [Value.str "x"]
    (Or.inl rfl)

/-- C4: with a non-empty tuple of explicit children, all four factories skip
inference and validation: the children are returned unchanged and the
caption/headers/rows/footers arguments are ignored, whatever they are. -/
theorem explicit_children_bypass (c : Comp) (cs : List Comp)
    (caption headers rows footers : Value) :
    Table.create (c :: cs) caption headers rows footers =
      Except.ok (Comp.node "Table" (c :: cs)) ∧
    Thead.create (c :: cs) headers = Except.ok (Comp.node "Thead" (c :: cs)) ∧
    Tbody.create (c :: cs) rows = Except.ok (Comp.node "Tbody" (c :: cs)) ∧
    Tfoot.create (c :: cs) footers = Except.ok (Comp.node "Tfoot" (c :: cs)) := by
  refine ⟨?_, ?_, ?_, ?_⟩ <;>
    simp [Table.create, Thead.create, Tbody.create, Tfoot.create]

/-- C9: for every list/tuple-like footers value — plain list, plain tuple, or
a Var whose declared base is list/tuple — `Tfoot.create` builds its single
row with cell_type "header", so footer cells are `Th` nodes (statically, or
through the Foreach body for a Var); and its validation error message names
headers, not footers. -/
theorem tfoot_header_cells_and_message (fs : List Value) (ty : PyTy) (v : Value)
    (hty : isListOrTuple (types.get_base_class ty) = true)
    (hv : listTupleLike v = false) :
    Tfoot.create [] (Value.vlist fs) =
      Except.ok (Comp.node "Tfoot"
        [Comp.node "Tr" (fs.map (fun x => Comp.node "Th" [Comp.raw x]))]) ∧
    Tfoot.create [] (Value.vtuple fs) =
      Except.ok (Comp.node "Tfoot"
        [Comp.node "Tr" (fs.map (fun x => Comp.node "Th" [Comp.raw x]))]) ∧
    Tfoot.create [] (Value.var ty) =
      Except.ok (Comp.node "Tfoot"
        [Comp.node "Tr" [Comp.foreach (Value.var ty) (Tr.cellFn CellCls.th)]]) ∧
    (∀ w, Tr.cellFn CellCls.th w = Except.ok (Comp.node "Th" [Comp.raw w])) ∧
    Tfoot.create [] v =
      Except.error (PyErr.typeError "table headers should be a list or tuple") := by
  have hmap : fs.map CellCls.th.create = fs.map (fun x => Comp.node "Th" [Comp.raw x]) := rfl
  refine ⟨?_, ?_, ?_, fun w => rfl, ?_⟩
  · have hval : Tfoot.validate_footers (Value.vlist fs) = Except.ok () := by
      simp [validate_footers_eq, listTupleLike]
    have htr := tr_create_vlist "header" CellCls.th fs rfl
    unfold Tfoot.create
    simp [hval, htr, hmap]
  · have hval : Tfoot.validate_footers (Value.vtuple fs) = Except.ok () := by
      simp [validate_footers_eq, listTupleLike]
    have htr := tr_create_vtuple "header" CellCls.th fs rfl
    unfold Tfoot.create
    simp [hval, htr, hmap]
  · have hval : Tfoot.validate_footers (Value.var ty) = Except.ok () := by
      simp [validate_footers_eq, listTupleLike, hty]
    have htr := tr_create_var "header" CellCls.th ty rfl
    unfold Tfoot.create
    simp [hval, htr]
  · unfold Tfoot.create
    simp [validate_footers_eq, hv]

/-- Witness for C9 at a concrete footer list/tuple, a tuple-typed Var, and
the malformed value None. -/
theorem tfoot_header_cells_and_message_witness :
    Tfoot.create [] (Value.vlist [Value.str "f"]) =
      Except.ok (Comp.node "Tfoot"
        [Comp.node "Tr" ([Value.str "f"].map
          (fun x => Comp.node "Th" [Comp.raw x]))]) ∧
    Tfoot.create [] (Value.vtuple [Value.str "f"]) =
      Except.ok (Comp.node "Tfoot"
        [Comp.node "Tr" ([Value.str "f"].map
          (fun x => Comp.node "Th" [Comp.raw x]))]) ∧
    Tfoot.create [] (Value.var (PyTy.simple Base.tup)) =
      Except.ok (Comp.node "Tfoot"
        [Comp.node "Tr" [Comp.foreach (Value.var (PyTy.simple Base.tup))
          (Tr.cellFn CellCls.th)]]) ∧
    (∀ w, Tr.cellFn CellCls.th w = Except.ok (Comp.node "Th" [Comp.raw w])) ∧
    Tfoot.create [] Value.none =
      Except.error (PyErr.typeError "table headers should be a list or tuple") :=
  tfoot_header_cells_and_message [Value.str "f"] (PyTy.simple Base.tup)
    Value.none (by decide) rfl

/-- C10: for any cell_type outside "header"/"data" (including the default
empty string), `Tr.create` with no explicit children raises nothing, ignores
the cells argument, and returns a row with no children. -/
theorem tr_create_unknown_cell_type (cell_type : String) (cells : Value)
    (h1 : cell_type ≠ "header") (h2 : cell_type ≠ "data") :
    Tr.create [] cell_type cells = Except.ok (Comp.node "Tr" []) := by
  simp [Tr.create, Tr.cellClasses, h1, h2]

/-- Witness for C10 at the default empty cell_type with a non-empty cells
list. -/
theorem tr_create_unknown_cell_type_witness :
    Tr.create [] "" (Value.vlist [Value.str "x"]) =
      Except.ok (Comp.node "Tr" []) :=
  tr_create_unknown_cell_type "" (Value.vlist [Value.str "x"])
    (by decide) (by decide)

/-- A list/tuple-like cells value never makes a row build fail. -/
theorem tr_create_ok_of_listTupleLike (cell_type : String) (v : Value)
    (h : listTupleLike v = true) :
    ∃ c, Tr.create [] cell_type v = Except.ok c := by
  rcases hcc : Tr.cellClasses cell_type with - | cc
  · exact ⟨Comp.node "Tr" [], by simp [Tr.create, hcc]⟩
  · cases v with
    | vlist xs => exact ⟨_, tr_create_vlist _ _ _ hcc⟩
    | vtuple xs => exact ⟨_, tr_create_vtuple _ _ _ hcc⟩
    | var ty => exact ⟨_, tr_create_var _ _ _ hcc⟩
    | str s => simp [listTupleLike] at h
    | none => simp [listTupleLike] at h
    | atom n t => simp [listTupleLike] at h

/-- C6: `Thead.create` (and `Tfoot.create`) with no explicit children raises
a TypeError exactly when the headers (footers) value is not list/tuple-like,
and never raises on a list/tuple-like value. -/
theorem thead_tfoot_raise_iff (v : Value) :
    ((∃ e, Thead.create [] v = Except.error e) ↔ listTupleLike v = false) ∧
    ((∃ e, Tfoot.create [] v = Except.error e) ↔ listTupleLike v = false) := by
  refine ⟨⟨?_, ?_⟩, ⟨?_, ?_⟩⟩
  · rintro ⟨e, he⟩
    cases hlt : listTupleLike v
    · rfl
    · exfalso
      rcases tr_create_ok_of_listTupleLike "header" v hlt with ⟨tc, htc⟩
      have hok : Thead.create [] v = Except.ok (Comp.node "Thead" [tc]) := by
        unfold Thead.create
        simp [validate_headers_eq, hlt, htc]
      rw [hok] at he
      simp at he
  · intro hlt
    exact ⟨PyErr.typeError "table headers should be a list or tuple",
      by unfold Thead.create; simp [validate_headers_eq, hlt]⟩
  · rintro ⟨e, he⟩
    cases hlt : listTupleLike v
    · rfl
    · exfalso
      rcases tr_create_ok_of_listTupleLike "header" v hlt with ⟨tc, htc⟩
      have hok : Tfoot.create [] v = Except.ok (Comp.node "Tfoot" [tc]) := by
        unfold Tfoot.create
        simp [validate_footers_eq, hlt, htc]
      rw [hok] at he
      simp at he
  · intro hlt
    exact ⟨PyErr.typeError "table headers should be a list or tuple",
      by unfold Tfoot.create; simp [validate_footers_eq, hlt]⟩

/-- C2 counterexample: rows = [[], None] is a list whose elements are not all
list/tuple-like (None is not), yet `Tbody.create` raises no TypeError at all
— it validates only the first element and returns two row nodes. -/
theorem tbody_rows_claim_counterexample :
    listTupleLike Value.none = false ∧
    Tbody.create [] (Value.vlist [Value.vlist [], Value.none]) =
      Except.ok (Comp.node "Tbody" [Comp.node "Tr" [], Comp.node "Tr" []]) :=
  ⟨rfl, rfl⟩

/-- C2 (amended): `Tbody.create` with no explicit children raises the
shape-validation TypeError exactly when rows is not well shaped: not
list/tuple-like, or a non-empty list/tuple whose FIRST element is not a
list/tuple (for a Var, declared outer base not list/tuple, or a declared
element type whose base is not list/tuple). -/
theorem tbody_create_typeError_iff (rows : Value) :
    (∃ msg, Tbody.create [] rows = Except.error (PyErr.typeError msg)) ↔
      rowsWellShaped rows = false := by
  constructor
  · rintro ⟨msg, hmsg⟩
    cases hws : rowsWellShaped rows
    · rfl
    · exfalso
      have hval := validate_rows_ok rows hws
      unfold Tbody.create at hmsg
      simp [hval] at hmsg
      by_cases hvar : rows.isVar
      · simp [hvar] at hmsg
      · simp [hvar] at hmsg
        rcases ho : orElseEmpty rows with e | rs <;> rw [ho] at hmsg <;>
          simp at hmsg
        · rcases orElseEmpty_error rows e ho with ⟨n, rfl⟩
          simp at hmsg
        · rcases hm : exceptMapAll Tbody.rowFn rs with e | trs <;>
            rw [hm] at hmsg <;> simp at hmsg
          rcases exceptMapAll_error _ _ _ hm with ⟨w, hw⟩
          rcases tr_create_error _ _ _ _ hw with ⟨n, rfl⟩
          simp at hmsg
  · intro hws
    rcases validate_rows_error rows hws with ⟨msg, hmsg⟩
    exact ⟨msg, by unfold Tbody.create; simp [hmsg]⟩

/-- A plain tuple of rows passes the well-shapedness test exactly when the
same rows as a plain list do. -/
theorem rowsWellShaped_vtuple (rs : List Value) :
    rowsWellShaped (Value.vtuple rs) = rowsWellShaped (Value.vlist rs) := by
  cases rs <;> rfl

/-- C5: being reactive decides only static versus dynamic construction — a
Var rows (cells) value yields exactly one Foreach child whose body is the
same per-element builder applied, one element at a time, by the static branch
for a plain list or tuple. -/
theorem reactive_vs_static_construction (ty : PyTy) (rs cs : List Value)
    (cell_type : String) (cc : CellCls)
    (hty : rowsWellShaped (Value.var ty) = true)
    (hrs : rowsWellShaped (Value.vlist rs) = true)
    (hcc : Tr.cellClasses cell_type = some cc) :
    Tbody.create [] (Value.var ty) =
      Except.ok (Comp.node "Tbody" [Comp.foreach (Value.var ty) Tbody.rowFn]) ∧
    Tbody.create [] (Value.vlist rs) =
      (match exceptMapAll Tbody.rowFn rs with
       | .error e => Except.error e
       | .ok trs => Except.ok (Comp.node "Tbody" trs)) ∧
    Tbody.create [] (Value.vtuple rs) =
      (match exceptMapAll Tbody.rowFn rs with
       | .error e => Except.error e
       | .ok trs => Except.ok (Comp.node "Tbody" trs)) ∧
    Tr.create [] cell_type (Value.var ty) =
      Except.ok (Comp.node "Tr" [Comp.foreach (Value.var ty) (Tr.cellFn cc)]) ∧
    Tr.create [] cell_type (Value.vlist cs) =
      Except.ok (Comp.node "Tr" (cs.map cc.create)) ∧
    Tr.create [] cell_type (Value.vtuple cs) =
      Except.ok (Comp.node "Tr" (cs.map cc.create)) ∧
    ∀ w, Tr.cellFn cc w = Except.ok (cc.create w) := by
  refine ⟨?_, ?_, ?_, tr_create_var _ _ _ hcc, tr_create_vlist _ _ _ hcc,
    tr_create_vtuple _ _ _ hcc, fun w => rfl⟩
  · unfold Tbody.create
    simp [validate_rows_ok _ hty, Value.isVar]
  · unfold Tbody.create
    simp [validate_rows_ok _ hrs, Value.isVar, orElseEmpty_vlist]
  · have hrst : rowsWellShaped (Value.vtuple rs) = true :=
      (rowsWellShaped_vtuple rs).trans hrs
    unfold Tbody.create
    simp [validate_rows_ok _ hrst, Value.isVar, orElseEmpty_vtuple]

/-- Witness for C5 at a concrete Var type, rows list/tuple, and cells
list/tuple. -/
theorem reactive_vs_static_construction_witness :
    Tbody.create [] (Value.var (PyTy.generic Base.lst (PyTy.simple Base.lst))) =
      Except.ok (Comp.node "Tbody"
        [Comp.foreach (Value.var (PyTy.generic Base.lst (PyTy.simple Base.lst)))
          Tbody.rowFn]) ∧
    Tbody.create [] (Value.vlist [Value.vlist []]) =
      (match exceptMapAll Tbody.rowFn [Value.vlist []] with
       | .error e => Except.error e
       | .ok trs => Except.ok (Comp.node "Tbody" trs)) ∧
    Tbody.create [] (Value.vtuple [Value.vlist []]) =
      (match exceptMapAll Tbody.rowFn [Value.vlist []] with
       | .error e => Except.error e
       | .ok trs => Except.ok (Comp.node "Tbody" trs)) ∧
    Tr.create [] "data" (Value.var (PyTy.generic Base.lst (PyTy.simple Base.lst))) =
      Except.ok (Comp.node "Tr"
        [Comp.foreach (Value.var (PyTy.generic Base.lst (PyTy.simple Base.lst)))
          (Tr.cellFn CellCls.td)]) ∧
    Tr.create [] "data" (Value.vlist [Value.str "x"]) =
      Except.ok (Comp.node "Tr" ([Value.str "x"].map CellCls.td.create)) ∧
    Tr.create [] "data" (Value.vtuple [Value.str "x"]) =
      Except.ok (Comp.node "Tr" ([Value.str "x"].map CellCls.td.create)) ∧
    ∀ w, Tr.cellFn CellCls.td w = Except.ok (CellCls.td.create w) :=
  reactive_vs_static_construction (PyTy.generic Base.lst (PyTy.simple Base.lst))
    [Value.vlist []] [Value.str "x"] "data" CellCls.td
    (by decide) (by decide) (by decide)

/-- C7: with no explicit children, `Table.create` builds its children in the
fixed order caption, header, body, footer, each present exactly when its
argument is not None (assuming each given section builds successfully). -/
theorem table_create_child_order (caption headers rows footers : Value)
    (hh : headers = Value.none ∨ ∃ c, Thead.create [] headers = Except.ok c)
    (hr : rows = Value.none ∨ ∃ c, Tbody.create [] rows = Except.ok c)
    (hf : footers = Value.none ∨ ∃ c, Tfoot.create [] footers = Except.ok c) :
    ∃ cs, Table.create [] caption headers rows footers =
        Except.ok (Comp.node "Table" cs) ∧
      cs.map Comp.tagOf =
        (if caption.isNone then [] else [some "TableCaption"]) ++
        (if headers.isNone then [] else [some "Thead"]) ++
        (if rows.isNone then [] else [some "Tbody"]) ++
        (if footers.isNone then [] else [some "Tfoot"]) := by
  obtain ⟨headL, hH, hHtag⟩ := sectionList_ok headers (Thead.create []) hh "Thead"
    (fun c hc => by rcases (nestOk_thead _ _ hc).1 with ⟨l, rfl⟩; rfl)
  obtain ⟨bodyL, hB, hBtag⟩ := sectionList_ok rows (Tbody.create []) hr "Tbody"
    (fun c hc => by rcases (nestOk_tbody _ _ hc).1 with ⟨l, rfl⟩; rfl)
  obtain ⟨footL, hF, hFtag⟩ := sectionList_ok footers (Tfoot.create []) hf "Tfoot"
    (fun c hc => by rcases (nestOk_tfoot _ _ hc).1 with ⟨l, rfl⟩; rfl)
  refine ⟨(if caption.isNone then [] else [TableCaption.create caption])
      ++ headL ++ bodyL ++ footL, ?_, ?_⟩
  · unfold Table.create
    simp [hH, hB, hF]
  · by_cases hc : caption.isNone <;>
      simp [hc, hHtag, hBtag, hFtag, Comp.tagOf, TableCaption.create]

/-- Witness for C7: caption and headers given, rows empty list, footers
None. -/
theorem table_create_child_order_witness :
    ∃ cs, Table.create [] (Value.str "t") (Value.vlist [Value.str "a"])
        (Value.vlist []) Value.none =
        Except.ok (Comp.node "Table" cs) ∧
      cs.map Comp.tagOf =
        (if (Value.str "t").isNone then [] else [some "TableCaption"]) ++
        (if (Value.vlist [Value.str "a"]).isNone then [] else [some "Thead"]) ++
        (if (Value.vlist []).isNone then [] else [some "Tbody"]) ++
        (if Value.none.isNone then [] else [some "Tfoot"]) :=
  table_create_child_order (Value.str "t") (Value.vlist [Value.str "a"])
    (Value.vlist []) Value.none
    (Or.inr ⟨Comp.node "Thead" [Comp.node "Tr" [Comp.node "Th"
      [Comp.raw (Value.str "a")]]], rfl⟩)
    (Or.inr ⟨Comp.node "Tbody" [], rfl⟩)
    (Or.inl rfl)

/-- Every component a successful section contributes is nesting-valid, given
that the section builder only produces nesting-valid components. -/
theorem sectionList_nestOk (v : Value) (build : Value → Except PyErr Comp)
    (hbuild : ∀ c, build v = Except.ok c → NestOk c)
    (l : List Comp) (h : sectionList v build = Except.ok l) :
    ∀ c ∈ l, NestOk c :=
  fun c hc => hbuild c (sectionList_mem v build l h c hc)

/-- C8: structural nesting validity is an invariant of every tree built by
`Table.create` from caption/headers/rows/footers arguments: no node of the
resulting tree (including nodes any Foreach body can render) sits directly
under a parent whose invalid_children list contains its tag. -/
theorem table_create_nesting_invariant (caption headers rows footers : Value)
    (comp : Comp)
    (h : Table.create [] caption headers rows footers = Except.ok comp) :
    NestOk comp := by
  unfold Table.create at h
  simp at h
  rcases hH : sectionList headers (Thead.create []) with e | headL <;>
    rw [hH] at h <;> simp at h
  rcases hB : sectionList rows (Tbody.create []) with e | bodyL <;>
    rw [hB] at h <;> simp at h
  rcases hF : sectionList footers (Tfoot.create []) with e | footL <;>
    rw [hF] at h <;> simp at h
  subst h
  refine NestOk.node _ _ (fun c _ => childTagAllowed_table c) ?_
  intro c hc
  simp only [List.append_assoc, List.mem_append] at hc
  rcases hc with hc | hc | hc | hc
  · by_cases hcap : caption.isNone <;> simp [hcap] at hc
    subst hc
    exact nestOk_caption caption
  · exact sectionList_nestOk headers (Thead.create [])
      (fun c hc => (nestOk_thead _ _ hc).2) headL hH c hc
  · exact sectionList_nestOk rows (Tbody.create [])
      (fun c hc => (nestOk_tbody _ _ hc).2) bodyL hB c hc
  · exact sectionList_nestOk footers (Tfoot.create [])
      (fun c hc => (nestOk_tfoot _ _ hc).2) footL hF c hc

/-- Witness for C8 at a table with a caption, headers, rows and footers all
given. -/
theorem table_create_nesting_invariant_witness :
    NestOk (Comp.node "Table"
      [Comp.node "TableCaption" [Comp.raw (Value.str "t")],
       Comp.node "Thead" [Comp.node "Tr" [Comp.node "Th" [Comp.raw (Value.str "a")]]],
       Comp.node "Tbody" [Comp.node "Tr" [Comp.node "Td" [Comp.raw (Value.str "1")]]],
       Comp.node "Tfoot" [Comp.node "Tr" [Comp.node "Th" [Comp.raw (Value.str "f")]]]]) :=
  table_create_nesting_invariant (Value.str "t") (Value.vlist [Value.str "a"])
    (Value.vlist [Value.vlist [Value.str "1"]]) (Value.vlist [Value.str "f"]) _ rfl
